import Mathlib

/-!
Verification development for `src/framework/liblegato/linux/ima.c` (Legato
IMA support): single-file IMA signature verification, recursive directory
verification, kernel IMA-enablement probing, and public-certificate import
into the kernel keyring.

The C code delegates all work to `system(3)`: it builds a shell command
string into a fixed 4096-byte buffer with `snprintf`, runs it, and
classifies the returned wait status with `WIFEXITED`/`WEXITSTATUS`.  We
embed the wait status as an abstract `ProcStatus` together with its raw
`int` encoding (`rawStatus`), define the two macros on the raw encoding
exactly as glibc does, and model `system` as an environment function from
command strings to statuses.  Directory traversal (`fts_open`/`fts_read`)
is embedded as the stream of entries the traversal yields, in whatever
order the OS chooses, plus a flag for whether `fts_open` succeeded.
-/

set_option autoImplicit false

namespace Ima

/-- Legato result code (`le_result_t`); only `LE_OK` and `LE_FAULT` are used
by `ima.c`. -/
inductive le_result where
  | LE_OK
  | LE_FAULT
  deriving DecidableEq

/-- Termination of a process spawned with `system(3)`:
normal exit with a code, death by a signal, or failure to spawn the shell
(`system` returns `-1`). -/
inductive ProcStatus where
  | exited (code : Nat)
  | signaled (sig : Nat)
  | spawnFailure
  deriving DecidableEq

/-- The raw `int` wait status that `system` returns for each termination
mode: a normal exit stores the low 8 bits of the exit code in bits 8..15;
death by signal `sig` stores the signal number in the low 7 bits; a spawn
failure is reported as `-1`. -/
def rawStatus : ProcStatus → Int
  | .exited code => 256 * ((code : Int) % 256)
  | .signaled sig => (sig : Int) % 128
  | .spawnFailure => -1

/-- Statuses the OS can actually deliver: exit codes are already reduced to
8 bits, and a real signal number has nonzero low 7 bits (signal 0 does not
kill a process). -/
def ValidStatus : ProcStatus → Prop
  | .exited code => code < 256
  | .signaled sig => sig % 128 ≠ 0
  | .spawnFailure => True

/-- The C macro `WIFEXITED(s)`, i.e. `(s & 0x7f) == 0`; bitwise AND with
`0x7f` on a two's-complement `int` is `emod 128`. -/
def WIFEXITED (status : Int) : Bool :=
  status % 128 == 0

/-- The C macro `WEXITSTATUS(s)`, i.e. `(s >> 8) & 0xff`; arithmetic right
shift by 8 is `ediv 256` and AND with `0xff` is `emod 256`. -/
def WEXITSTATUS (status : Int) : Int :=
  (status / 256) % 256

/-- The environment seen through `system(3)`: what termination status the
shell run of each command string produces.  Each operation of `ima.c` is a
pure function of this environment. -/
structure SysEnv where
  run : String → ProcStatus

/-- `MAX_CMD_BYTES` from `ima.c`. -/
def MAX_CMD_BYTES : Nat := 4096

/-- `EVMCTL_PATH` from `ima.c`. -/
def EVMCTL_PATH : String := "/usr/bin/evmctl"

/-- `snprintf(cmd, MAX_CMD_BYTES, ...)`: the buffer receives at most
`MAX_CMD_BYTES - 1` characters of the formatted string plus a terminator;
a longer result is silently truncated, and no error is reported. -/
def snprintfCmd (s : String) : String :=
  String.mk (s.data.take (MAX_CMD_BYTES - 1))

/-- The full (untruncated) verification command formatted by `VerifyFile`:
`"%s ima_verify %s -k %s "` with `EVMCTL_PATH`, the file path and the
certificate path substituted. -/
def verifyCmdFull (filePath certPath : String) : String :=
  EVMCTL_PATH ++ " ima_verify " ++ filePath ++ " -k " ++ certPath ++ " "

/-- The command string `VerifyFile` actually executes (after the
`snprintf` truncation). -/
def verifyCmd (filePath certPath : String) : String :=
  snprintfCmd (verifyCmdFull filePath certPath)

/-- What `VerifyFile` reports through `LE_ERROR` on a fault: the file
path, the certificate path, and `WEXITSTATUS(exitCode)`. -/
structure FaultReport where
  filePath : String
  certPath : String
  reportedExitCode : Int
  deriving DecidableEq

/-- `VerifyFile` from `ima.c`, together with the fault report it logs when
it fails: build the command, run it, return `LE_OK` iff
`WIFEXITED(exitCode) && 0 == WEXITSTATUS(exitCode)`, otherwise log the
file path, certificate path and `WEXITSTATUS(exitCode)` and return
`LE_FAULT`. -/
def VerifyFileRun (env : SysEnv) (filePath certPath : String) :
    le_result × Option FaultReport :=
  let cmd := verifyCmd filePath certPath
  let exitCode := rawStatus (env.run cmd)
  if WIFEXITED exitCode && (WEXITSTATUS exitCode == 0) then
    (.LE_OK, none)
  else
    (.LE_FAULT, some ⟨filePath, certPath, WEXITSTATUS exitCode⟩)

/-- The `le_result_t` value returned by `VerifyFile`. -/
def VerifyFile (env : SysEnv) (filePath certPath : String) : le_result :=
  (VerifyFileRun env filePath certPath).1

/-- The `fts_info` classification of a traversal entry, as used by the
`switch` in `VerifyDir`: `FTS_F` is a regular file, `FTS_SL`/`FTS_SLNONE`
are symbolic links (followable or dangling), `FTS_D`/`FTS_DP` are pre- and
post-order directory visits, `FTS_DNR` an unreadable directory, `FTS_NS` a
stat failure, `FTS_ERR` another traversal error, and the rest are the
remaining fts classifications. -/
inductive FtsInfo where
  | FTS_D
  | FTS_DC
  | FTS_DEFAULT
  | FTS_DNR
  | FTS_DOT
  | FTS_DP
  | FTS_ERR
  | FTS_F
  | FTS_NS
  | FTS_NSOK
  | FTS_SL
  | FTS_SLNONE
  deriving DecidableEq

/-- The fields of an `FTSENT` that `VerifyDir` reads: the base name of the
entry, the access path passed to `VerifyFile`, and the `fts_info`
classification. -/
structure FTSENT where
  fts_name : String
  fts_accpath : String
  fts_info : FtsInfo
  deriving DecidableEq

/-- A directory traversal as `VerifyDir` observes it through
`fts_open`/`fts_read`: whether `fts_open` succeeded, and, if so, the
sequence of entries `fts_read` yields before returning NULL.  The entry
order is whatever the OS chooses; all claims quantify over it. -/
structure FtsTraversal where
  openOk : Bool
  entries : List FTSENT

/-- The `while (fts_read)` loop of `VerifyDir`, instrumented with the list
of entries it hands to `VerifyFile` (each such entry is one external
verification command).  `FTS_SL` and `FTS_SLNONE` break out of the switch;
`FTS_F` entries whose `fts_name` differs from the well-known certificate
name `pubCertName` are verified, and a failure returns `LE_FAULT` at once;
every other classification falls through the switch and is skipped.  The
`PUB_CERT_NAME` macro comes from `ima.h`, which is not among the sources,
so the well-known name is taken as the parameter `pubCertName`. -/
def VerifyDirLoop (env : SysEnv) (certPath pubCertName : String) :
    List FTSENT → le_result × List FTSENT
  | [] => (.LE_OK, [])
  | ent :: rest =>
    match ent.fts_info with
    | .FTS_SL => VerifyDirLoop env certPath pubCertName rest
    | .FTS_SLNONE => VerifyDirLoop env certPath pubCertName rest
    | .FTS_F =>
      if ent.fts_name ≠ pubCertName then
        if VerifyFile env ent.fts_accpath certPath ≠ .LE_OK then
          (.LE_FAULT, [ent])
        else
          let r := VerifyDirLoop env certPath pubCertName rest
          (r.1, ent :: r.2)
      else
        VerifyDirLoop env certPath pubCertName rest
    | _ => VerifyDirLoop env certPath pubCertName rest

/-- `VerifyDir` from `ima.c`, instrumented with the entries passed to
verification: if `fts_open` fails it returns `LE_FAULT` without visiting
any entry; otherwise it runs the traversal loop. -/
def VerifyDirRun (env : SysEnv) (trav : FtsTraversal)
    (certPath pubCertName : String) : le_result × List FTSENT :=
  if trav.openOk then
    VerifyDirLoop env certPath pubCertName trav.entries
  else
    (.LE_FAULT, [])

/-- The `le_result_t` value returned by `VerifyDir`. -/
def VerifyDir (env : SysEnv) (trav : FtsTraversal)
    (certPath pubCertName : String) : le_result :=
  (VerifyDirRun env trav certPath pubCertName).1

/-- The fixed probe command run by `ima_IsEnabled`. -/
def isEnabledCmd : String :=
  "(zcat /proc/config.gz | grep CONFIG_IMA=y) && (cat /proc/cmdline | grep \"ima_appraise=enforce\")"

/-- `ima_IsEnabled` from `ima.c`: run the probe command and report whether
it exited normally with status zero. -/
def ima_IsEnabled (env : SysEnv) : Bool :=
  let exitCode := rawStatus (env.run isEnabledCmd)
  WIFEXITED exitCode && (WEXITSTATUS exitCode == 0)

/-- A shell single-quote character (kept out of string literals). -/
def shellQuote : String := String.singleton (Char.ofNat 39)

/-- The fixed head of the import command built by `ImportPublicCert`:
everything of the `snprintf` format before `"%s import %s $ima_id"`, with
`%%d` already reduced to `%d` by `snprintf`. -/
def importCmdHead : String :=
  "SECFS=/sys/kernel/security && grep -q  $SECFS /proc/mounts || mount -n -t securityfs securityfs $SECFS && ima_id=\"`awk "
    ++ shellQuote ++ "/\\.ima/ \x7b printf \"%d\", \"0x\"$1; \x7d" ++ shellQuote
    ++ " /proc/keys`\" && "

/-- The full (untruncated) import command formatted by
`ImportPublicCert`. -/
def importCmdFull (certPath : String) : String :=
  importCmdHead ++ EVMCTL_PATH ++ " import " ++ certPath ++ " $ima_id"

/-- The command string `ImportPublicCert` actually executes (after the
`snprintf` truncation). -/
def importCmd (certPath : String) : String :=
  snprintfCmd (importCmdFull certPath)

/-- `ImportPublicCert` from `ima.c`: build the import command, run it, and
return `LE_OK` iff it exited normally with status zero. -/
def ImportPublicCert (env : SysEnv) (certPath : String) : le_result :=
  let exitCode := rawStatus (env.run (importCmd certPath))
  if WIFEXITED exitCode && (WEXITSTATUS exitCode == 0) then
    .LE_OK
  else
    .LE_FAULT

/-- Public wrapper `ima_VerifyFile`, a pass-through to `VerifyFile`. -/
def ima_VerifyFile (env : SysEnv) (filePath certPath : String) : le_result :=
  VerifyFile env filePath certPath

/-- Public wrapper `ima_VerifyDir`, a pass-through to `VerifyDir`. -/
def ima_VerifyDir (env : SysEnv) (trav : FtsTraversal)
    (certPath pubCertName : String) : le_result :=
  VerifyDir env trav certPath pubCertName

/-- Public wrapper `ima_ImportPublicCert`, a pass-through to
`ImportPublicCert`. -/
def ima_ImportPublicCert (env : SysEnv) (certPath : String) : le_result :=
  ImportPublicCert env certPath

/-- `WIFEXITED(s) && WEXITSTATUS(s) == 0` for a status, the success test
every operation of `ima.c` applies to its `system` call. -/
def isExitZero (s : ProcStatus) : Bool :=
  WIFEXITED (rawStatus s) && (WEXITSTATUS (rawStatus s) == 0)

/-- Modelled from the spec: the shell semantics of the feature-probe
command of §6, whose executing programs (`zcat`, `cat`, `grep`, the shell)
are external collaborators not in the repository.  The command
`(zcat /proc/config.gz | grep CONFIG_IMA=y) && (cat /proc/cmdline | grep
"ima_appraise=enforce")` exits normally with status zero iff both the
kernel-config feature-flag probe and the boot-command-line
enforcement-marker probe succeed, and exits normally with a nonzero
status otherwise. -/
def isEnabledShell (configHasImaFlag cmdlineHasEnforceMarker : Bool) : ProcStatus :=
  if configHasImaFlag && cmdlineHasEnforceMarker then .exited 0 else .exited 1

/-- Modelled from the spec: the external facts the import command sequence
of §4.3/§6 reads, none of which are in the repository: whether the
security pseudo-filesystem is already mounted, whether mounting it now
succeeds, the numeric IMA key identifier that the pattern match extracts
from the live kernel key listing (`none` when the listing has no match),
and how the external import tool terminates for a given, possibly
unresolved, key identifier. -/
structure ImportEnv where
  secfsAlreadyMounted : Bool
  mountSucceeds : Bool
  imaKeyId : Option Nat
  importTool : Option Nat → ProcStatus

/-- Modelled from the spec: the shell semantics of the import command
sequence of §6, `A && grep || mount && ima_id=...`&& <tool> import ...`.
Shell `&&` and `||` associate left with equal precedence, so the sequence
is `((A && grep) || mount) && assign && import`: the import tool runs iff
the security-filesystem stage succeeds (already mounted, or mounted now);
the key-identifier assignment itself succeeds even when the listing has
no match, leaving the identifier argument empty.  Returns the overall
command status together with whether the import tool was invoked; when
the mount stage fails the command ends with `mount`'s nonzero exit
status (32). -/
def importShellRun (e : ImportEnv) : ProcStatus × Bool :=
  if e.secfsAlreadyMounted || e.mountSucceeds then
    (e.importTool e.imaKeyId, true)
  else
    (.exited 32, false)

theorem wifexited_exited (code : Nat) :
    WIFEXITED (rawStatus (.exited code)) = true := by
  simp only [WIFEXITED, rawStatus, beq_iff_eq]
  omega

theorem wexitstatus_exited (code : Nat) :
    WEXITSTATUS (rawStatus (.exited code)) = (code : Int) % 256 := by
  simp only [WEXITSTATUS, rawStatus]
  omega

theorem wifexited_signaled (sig : Nat) (h : sig % 128 ≠ 0) :
    WIFEXITED (rawStatus (.signaled sig)) = false := by
  simp only [WIFEXITED, rawStatus, beq_eq_false_iff_ne, ne_eq]
  omega

theorem wexitstatus_signaled (sig : Nat) :
    WEXITSTATUS (rawStatus (.signaled sig)) = 0 := by
  simp only [WEXITSTATUS, rawStatus]
  omega

theorem wifexited_spawnFailure :
    WIFEXITED (rawStatus .spawnFailure) = false := by
  decide

theorem wexitstatus_spawnFailure :
    WEXITSTATUS (rawStatus .spawnFailure) = 255 := by
  decide

/-- For a status the OS can actually deliver, the success test of `ima.c`
holds exactly for a normal exit with status zero. -/
theorem isExitZero_iff_exited_zero (s : ProcStatus) (h : ValidStatus s) :
    isExitZero s = true ↔ s = .exited 0 := by
  cases s with
  | exited code =>
    simp only [ValidStatus] at h
    simp only [isExitZero, wifexited_exited, wexitstatus_exited, Bool.true_and,
      beq_iff_eq, ProcStatus.exited.injEq]
    omega
  | signaled sig =>
    simp only [ValidStatus] at h
    simp [isExitZero, wifexited_signaled sig h]
  | spawnFailure =>
    simp [isExitZero, wifexited_spawnFailure]

theorem verifyFileRun_eq (env : SysEnv) (filePath certPath : String) :
    VerifyFileRun env filePath certPath =
      if isExitZero (env.run (verifyCmd filePath certPath)) then
        (.LE_OK, none)
      else
        (.LE_FAULT, some ⟨filePath, certPath,
          WEXITSTATUS (rawStatus (env.run (verifyCmd filePath certPath)))⟩) :=
  rfl

theorem importPublicCert_eq (env : SysEnv) (certPath : String) :
    ImportPublicCert env certPath =
      if isExitZero (env.run (importCmd certPath)) then .LE_OK else .LE_FAULT :=
  rfl

theorem ima_IsEnabled_eq (env : SysEnv) :
    ima_IsEnabled env = isExitZero (env.run isEnabledCmd) := by
  simp [ima_IsEnabled, isExitZero]

theorem verifyDirLoop_cons_skip (env : SysEnv) (certPath pubCertName : String)
    (ent : FTSENT) (rest : List FTSENT) (h : ent.fts_info ≠ .FTS_F) :
    VerifyDirLoop env certPath pubCertName (ent :: rest) =
      VerifyDirLoop env certPath pubCertName rest := by
  rcases ent with ⟨nm, ap, info⟩
  cases info <;> simp_all [VerifyDirLoop]

theorem verifyDirLoop_cons_certName (env : SysEnv) (certPath pubCertName : String)
    (ent : FTSENT) (rest : List FTSENT) (hF : ent.fts_info = .FTS_F)
    (hnm : ent.fts_name = pubCertName) :
    VerifyDirLoop env certPath pubCertName (ent :: rest) =
      VerifyDirLoop env certPath pubCertName rest := by
  rcases ent with ⟨nm, ap, info⟩
  simp only at hF hnm
  subst hF
  simp [VerifyDirLoop, hnm]

theorem verifyDirLoop_cons_ok (env : SysEnv) (certPath pubCertName : String)
    (ent : FTSENT) (rest : List FTSENT) (hF : ent.fts_info = .FTS_F)
    (hnm : ent.fts_name ≠ pubCertName)
    (hv : VerifyFile env ent.fts_accpath certPath = .LE_OK) :
    VerifyDirLoop env certPath pubCertName (ent :: rest) =
      ((VerifyDirLoop env certPath pubCertName rest).1,
        ent :: (VerifyDirLoop env certPath pubCertName rest).2) := by
  rcases ent with ⟨nm, ap, info⟩
  simp only at hF hnm hv
  subst hF
  simp [VerifyDirLoop, hnm, hv]

theorem verifyDirLoop_cons_fault (env : SysEnv) (certPath pubCertName : String)
    (ent : FTSENT) (rest : List FTSENT) (hF : ent.fts_info = .FTS_F)
    (hnm : ent.fts_name ≠ pubCertName)
    (hv : VerifyFile env ent.fts_accpath certPath ≠ .LE_OK) :
    VerifyDirLoop env certPath pubCertName (ent :: rest) =
      (.LE_FAULT, [ent]) := by
  rcases ent with ⟨nm, ap, info⟩
  simp only at hF hnm hv
  subst hF
  simp [VerifyDirLoop, hnm, hv]

theorem verifyDirLoop_cons_congr (env : SysEnv) (certPath pubCertName : String)
    (ent : FTSENT) (l₁ l₂ : List FTSENT)
    (h : VerifyDirLoop env certPath pubCertName l₁ =
      VerifyDirLoop env certPath pubCertName l₂) :
    VerifyDirLoop env certPath pubCertName (ent :: l₁) =
      VerifyDirLoop env certPath pubCertName (ent :: l₂) := by
  by_cases hF : ent.fts_info = .FTS_F
  · by_cases hnm : ent.fts_name = pubCertName
    · rw [verifyDirLoop_cons_certName env certPath pubCertName ent l₁ hF hnm,
        verifyDirLoop_cons_certName env certPath pubCertName ent l₂ hF hnm, h]
    · by_cases hv : VerifyFile env ent.fts_accpath certPath = .LE_OK
      · rw [verifyDirLoop_cons_ok env certPath pubCertName ent l₁ hF hnm hv,
          verifyDirLoop_cons_ok env certPath pubCertName ent l₂ hF hnm hv, h]
      · rw [verifyDirLoop_cons_fault env certPath pubCertName ent l₁ hF hnm hv,
          verifyDirLoop_cons_fault env certPath pubCertName ent l₂ hF hnm hv]
  · rw [verifyDirLoop_cons_skip env certPath pubCertName ent l₁ hF,
      verifyDirLoop_cons_skip env certPath pubCertName ent l₂ hF, h]

theorem verifyDirLoop_ok_iff (env : SysEnv) (certPath pubCertName : String)
    (l : List FTSENT) :
    (VerifyDirLoop env certPath pubCertName l).1 = .LE_OK ↔
      ∀ e ∈ l, e.fts_info = .FTS_F → e.fts_name ≠ pubCertName →
        VerifyFile env e.fts_accpath certPath = .LE_OK := by
  induction l with
  | nil => simp [VerifyDirLoop]
  | cons ent rest ih =>
    by_cases hF : ent.fts_info = .FTS_F
    · by_cases hnm : ent.fts_name = pubCertName
      · rw [verifyDirLoop_cons_certName env certPath pubCertName ent rest hF hnm]
        simp_all
      · by_cases hv : VerifyFile env ent.fts_accpath certPath = .LE_OK
        · rw [verifyDirLoop_cons_ok env certPath pubCertName ent rest hF hnm hv]
          simp_all
        · rw [verifyDirLoop_cons_fault env certPath pubCertName ent rest hF hnm hv]
          simp_all
    · rw [verifyDirLoop_cons_skip env certPath pubCertName ent rest hF]
      simp_all

theorem verifyDirLoop_trace_sound (env : SysEnv) (certPath pubCertName : String)
    (l : List FTSENT) :
    ∀ e ∈ (VerifyDirLoop env certPath pubCertName l).2,
      e ∈ l ∧ e.fts_info = .FTS_F ∧ e.fts_name ≠ pubCertName := by
  induction l with
  | nil => simp [VerifyDirLoop]
  | cons ent rest ih =>
    by_cases hF : ent.fts_info = .FTS_F
    · by_cases hnm : ent.fts_name = pubCertName
      · rw [verifyDirLoop_cons_certName env certPath pubCertName ent rest hF hnm]
        intro e he
        rcases ih e he with ⟨h1, h2, h3⟩
        exact ⟨List.mem_cons_of_mem _ h1, h2, h3⟩
      · by_cases hv : VerifyFile env ent.fts_accpath certPath = .LE_OK
        · rw [verifyDirLoop_cons_ok env certPath pubCertName ent rest hF hnm hv]
          intro e he
          rcases List.mem_cons.1 he with he' | he'
          · exact ⟨by simp [he'], by simp [he', hF], by simp [he', hnm]⟩
          · rcases ih e he' with ⟨h1, h2, h3⟩
            exact ⟨List.mem_cons_of_mem _ h1, h2, h3⟩
        · rw [verifyDirLoop_cons_fault env certPath pubCertName ent rest hF hnm hv]
          intro e he
          rcases List.mem_singleton.1 he with he'
          exact ⟨by simp [he'], by simp [he', hF], by simp [he', hnm]⟩
    · rw [verifyDirLoop_cons_skip env certPath pubCertName ent rest hF]
      intro e he
      rcases ih e he with ⟨h1, h2, h3⟩
      exact ⟨List.mem_cons_of_mem _ h1, h2, h3⟩

theorem verifyDirLoop_append_of_fault (env : SysEnv) (certPath pubCertName : String)
    (pre rest : List FTSENT)
    (h : (VerifyDirLoop env certPath pubCertName pre).1 = .LE_FAULT) :
    VerifyDirLoop env certPath pubCertName (pre ++ rest) =
      VerifyDirLoop env certPath pubCertName pre := by
  induction pre with
  | nil => simp [VerifyDirLoop] at h
  | cons ent pre ih =>
    rw [List.cons_append]
    by_cases hF : ent.fts_info = .FTS_F
    · by_cases hnm : ent.fts_name = pubCertName
      · rw [verifyDirLoop_cons_certName env certPath pubCertName ent pre hF hnm] at h
        rw [verifyDirLoop_cons_certName env certPath pubCertName ent (pre ++ rest) hF hnm,
          verifyDirLoop_cons_certName env certPath pubCertName ent pre hF hnm]
        exact ih h
      · by_cases hv : VerifyFile env ent.fts_accpath certPath = .LE_OK
        · rw [verifyDirLoop_cons_ok env certPath pubCertName ent pre hF hnm hv] at h
          rw [verifyDirLoop_cons_ok env certPath pubCertName ent (pre ++ rest) hF hnm hv,
            verifyDirLoop_cons_ok env certPath pubCertName ent pre hF hnm hv,
            ih h]
        · rw [verifyDirLoop_cons_fault env certPath pubCertName ent (pre ++ rest) hF hnm hv,
            verifyDirLoop_cons_fault env certPath pubCertName ent pre hF hnm hv]
    · rw [verifyDirLoop_cons_skip env certPath pubCertName ent pre hF] at h
      rw [verifyDirLoop_cons_skip env certPath pubCertName ent (pre ++ rest) hF,
        verifyDirLoop_cons_skip env certPath pubCertName ent pre hF]
      exact ih h

theorem verifyDirLoop_insert_skip (env : SysEnv) (certPath pubCertName : String)
    (pre post : List FTSENT) (e : FTSENT) (h : e.fts_info ≠ .FTS_F) :
    VerifyDirLoop env certPath pubCertName (pre ++ e :: post) =
      VerifyDirLoop env certPath pubCertName (pre ++ post) := by
  induction pre with
  | nil =>
    simpa using verifyDirLoop_cons_skip env certPath pubCertName e post h
  | cons ent pre ih =>
    rw [List.cons_append, List.cons_append]
    exact verifyDirLoop_cons_congr env certPath pubCertName ent _ _ ih

theorem verifyFile_ok_iff_isExitZero (env : SysEnv) (filePath certPath : String) :
    VerifyFile env filePath certPath = .LE_OK ↔
      isExitZero (env.run (verifyCmd filePath certPath)) = true := by
  unfold VerifyFile
  rw [verifyFileRun_eq]
  split <;> simp_all

theorem importPublicCert_ok_iff_isExitZero (env : SysEnv) (certPath : String) :
    ImportPublicCert env certPath = .LE_OK ↔
      isExitZero (env.run (importCmd certPath)) = true := by
  rw [importPublicCert_eq]
  split <;> simp_all

/-- Claim C1: `VerifyDir` returns `LE_OK` iff opening the traversal root
succeeded and `VerifyFile` returns `LE_OK` for every regular-file entry of
the traversal whose base name is not the well-known certificate filename;
otherwise — on the first eligible-file failure, or on a failed root
open — it returns `LE_FAULT`. -/
theorem C1_verifyDir_ok_iff (env : SysEnv) (trav : FtsTraversal)
    (certPath pubCertName : String) :
    VerifyDir env trav certPath pubCertName = .LE_OK ↔
      (trav.openOk = true ∧
        ∀ e ∈ trav.entries, e.fts_info = .FTS_F → e.fts_name ≠ pubCertName →
          VerifyFile env e.fts_accpath certPath = .LE_OK) := by
  rcases trav with ⟨ok, entries⟩
  unfold VerifyDir VerifyDirRun
  cases ok with
  | true => simpa using verifyDirLoop_ok_iff env certPath pubCertName entries
  | false => simp

/-- Claim C2: `VerifyFile` returns `LE_OK` iff the spawned external
verification process terminates normally with exit status zero; every
other termination mode (non-zero exit, signal termination, spawn failure)
yields `LE_FAULT`. -/
theorem C2_verifyFile_ok_iff (env : SysEnv) (filePath certPath : String)
    (h : ValidStatus (env.run (verifyCmd filePath certPath))) :
    VerifyFile env filePath certPath = .LE_OK ↔
      env.run (verifyCmd filePath certPath) = .exited 0 :=
  (verifyFile_ok_iff_isExitZero env filePath certPath).trans
    (isExitZero_iff_exited_zero _ h)

/-- Witness for C2: a concrete environment whose verification tool exits
with status zero, on which `VerifyFile` returns `LE_OK`. -/
theorem C2_verifyFile_ok_iff_witness :
    VerifyFile ⟨fun _ => .exited 0⟩ "/bin/app" "/etc/cert.pem" = .LE_OK :=
  (C2_verifyFile_ok_iff ⟨fun _ => .exited 0⟩ "/bin/app" "/etc/cert.pem"
    (by show (0 : Nat) < 256; norm_num)).2 rfl

/-- Claim C3: once one file's verification yields `LE_FAULT` during a
`VerifyDir` call, visiting any further traversal entries is cut off:
appending arbitrary remaining entries leaves both the result and the
instrumented list of verified entries unchanged, so no further external
verification command is issued in that call. -/
theorem C3_verifyDir_short_circuit (env : SysEnv) (certPath pubCertName : String)
    (pre rest : List FTSENT)
    (h : (VerifyDirLoop env certPath pubCertName pre).1 = .LE_FAULT) :
    VerifyDirRun env ⟨true, pre ++ rest⟩ certPath pubCertName =
      VerifyDirRun env ⟨true, pre⟩ certPath pubCertName := by
  unfold VerifyDirRun
  simpa using verifyDirLoop_append_of_fault env certPath pubCertName pre rest h

/-- Witness for C3: with a tool that fails every file, the traversal that
fails on `a.bin` issues no verification for a subsequent `b.bin`. -/
theorem C3_verifyDir_short_circuit_witness :
    VerifyDirRun ⟨fun _ => .exited 1⟩
        ⟨true, [⟨"a.bin", "/d/a.bin", .FTS_F⟩, ⟨"b.bin", "/d/b.bin", .FTS_F⟩]⟩
        "/etc/cert.pem" "cert.pem" =
      VerifyDirRun ⟨fun _ => .exited 1⟩ ⟨true, [⟨"a.bin", "/d/a.bin", .FTS_F⟩]⟩
        "/etc/cert.pem" "cert.pem" :=
  C3_verifyDir_short_circuit ⟨fun _ => .exited 1⟩ "/etc/cert.pem" "cert.pem"
    [⟨"a.bin", "/d/a.bin", .FTS_F⟩] [⟨"b.bin", "/d/b.bin", .FTS_F⟩] (by decide)

/-- Claim C4: when the traversal root cannot be opened, `VerifyDir`
returns `LE_FAULT` at once and hands no entry at all to verification (the
instrumented list of verified entries is empty), so the external tool is
never invoked. -/
theorem C4_verifyDir_open_failure (env : SysEnv) (trav : FtsTraversal)
    (certPath pubCertName : String) (h : trav.openOk = false) :
    VerifyDirRun env trav certPath pubCertName = (.LE_FAULT, []) := by
  unfold VerifyDirRun
  simp [h]

/-- Witness for C4: an unopenable root faults with an empty verification
trace even though the tree holds a regular file. -/
theorem C4_verifyDir_open_failure_witness :
    VerifyDirRun ⟨fun _ => .exited 0⟩ ⟨false, [⟨"a.bin", "/d/a.bin", .FTS_F⟩]⟩
        "/etc/cert.pem" "cert.pem" = (.LE_FAULT, []) :=
  C4_verifyDir_open_failure ⟨fun _ => .exited 0⟩
    ⟨false, [⟨"a.bin", "/d/a.bin", .FTS_F⟩]⟩ "/etc/cert.pem" "cert.pem" rfl

/-- Claim C5: every entry a `VerifyDir` call hands to signature
verification is a regular-file entry whose base name differs from the
well-known certificate filename; in particular a file named exactly like
the certificate is never verified. -/
theorem C5_verifyDir_never_verifies_certName (env : SysEnv) (trav : FtsTraversal)
    (certPath pubCertName : String) :
    ∀ e ∈ (VerifyDirRun env trav certPath pubCertName).2,
      e.fts_info = .FTS_F ∧ e.fts_name ≠ pubCertName := by
  rcases trav with ⟨ok, entries⟩
  unfold VerifyDirRun
  cases ok with
  | true =>
    intro e he
    have h := verifyDirLoop_trace_sound env certPath pubCertName entries e (by simpa using he)
    exact ⟨h.2.1, h.2.2⟩
  | false => simp

/-- Witness for C5: in a directory holding `a.bin` and `cert.pem`
(the well-known name), the verified entry `a.bin` is a regular file whose
name is not the certificate's. -/
theorem C5_verifyDir_never_verifies_certName_witness :
    (⟨"a.bin", "/d/a.bin", .FTS_F⟩ : FTSENT).fts_info = .FTS_F ∧
      (⟨"a.bin", "/d/a.bin", .FTS_F⟩ : FTSENT).fts_name ≠ "cert.pem" :=
  C5_verifyDir_never_verifies_certName ⟨fun _ => .exited 0⟩
    ⟨true, [⟨"a.bin", "/d/a.bin", .FTS_F⟩, ⟨"cert.pem", "/d/cert.pem", .FTS_F⟩]⟩
    "/d/cert.pem" "cert.pem" ⟨"a.bin", "/d/a.bin", .FTS_F⟩ (by decide)

/-- Claim C6: when the probe command behaves as its shell semantics
prescribe (exit zero iff both probes succeed), `ima_IsEnabled` returns
`true` iff both the kernel-config feature-flag probe and the
boot-command-line enforcement-marker probe succeed; it is a pure function
of the read-only environment, so it mutates nothing. -/
theorem C6_isEnabled_iff_both_probes (env : SysEnv)
    (configHasImaFlag cmdlineHasEnforceMarker : Bool)
    (h : env.run isEnabledCmd = isEnabledShell configHasImaFlag cmdlineHasEnforceMarker) :
    ima_IsEnabled env = (configHasImaFlag && cmdlineHasEnforceMarker) := by
  rw [ima_IsEnabled_eq, h]
  unfold isEnabledShell
  cases hb : configHasImaFlag && cmdlineHasEnforceMarker <;> simp [hb] <;> decide

/-- Witness for C6: with both probes succeeding the predicate reports
`true`. -/
theorem C6_isEnabled_iff_both_probes_witness :
    ima_IsEnabled ⟨fun _ => isEnabledShell true true⟩ = (true && true) :=
  C6_isEnabled_iff_both_probes ⟨fun _ => isEnabledShell true true⟩ true true rfl

/-- Claim C7: with the import command behaving as its shell semantics
prescribe, `ImportPublicCert` returns `LE_OK` iff the external import tool
was actually invoked and terminated normally with exit status zero; and
when the IMA key-identifier extraction yields no match — the external
protocol rejecting the unresolved identifier with a nonzero status — the
result is `LE_FAULT`. -/
theorem C7_importPublicCert_spec (env : SysEnv) (certPath : String) (e : ImportEnv)
    (h : env.run (importCmd certPath) = (importShellRun e).1) :
    (ImportPublicCert env certPath = .LE_OK ↔
        ((importShellRun e).2 = true ∧ isExitZero (e.importTool e.imaKeyId) = true)) ∧
      (e.imaKeyId = none → isExitZero (e.importTool none) = false →
        ImportPublicCert env certPath = .LE_FAULT) := by
  have h32 : isExitZero (ProcStatus.exited 32) = false := by decide
  have hres : ∀ s : ProcStatus, env.run (importCmd certPath) = s →
      ImportPublicCert env certPath = (if isExitZero s then .LE_OK else .LE_FAULT) := by
    intro s hs
    rw [importPublicCert_eq, hs]
  constructor
  · unfold importShellRun at h ⊢
    by_cases hsec : e.secfsAlreadyMounted || e.mountSucceeds
    · rw [hres (e.importTool e.imaKeyId) (by simpa [hsec] using h)]
      simp only [hsec, if_pos, true_and]
      split <;> simp_all
    · rw [hres (.exited 32) (by simpa [hsec] using h)]
      simp [hsec, h32]
  · intro hnone htool
    unfold importShellRun at h
    by_cases hsec : e.secfsAlreadyMounted || e.mountSucceeds
    · rw [hres (e.importTool e.imaKeyId) (by simpa [hsec] using h)]
      rw [hnone] at *
      simp [htool]
    · rw [hres (.exited 32) (by simpa [hsec] using h)]
      simp [h32]

/-- Witness for C7: the security filesystem is mounted, the key listing
has no `.ima` match, and the import tool rejects the empty identifier
with exit status 1, so the import faults. -/
theorem C7_importPublicCert_spec_witness :
    ImportPublicCert ⟨fun _ => .exited 1⟩ "/etc/cert.pem" = .LE_FAULT :=
  (C7_importPublicCert_spec ⟨fun _ => .exited 1⟩ "/etc/cert.pem"
    ⟨true, true, none, fun _ => .exited 1⟩ rfl).2 rfl (by decide)

/-- Claim C9: traversal entries classified as error conditions — an
unreadable subdirectory (`FTS_DNR`), a stat failure (`FTS_NS`) or another
traversal error (`FTS_ERR`) — are silently skipped by `VerifyDir`:
removing such an entry from the entry stream changes neither the result
nor the list of entries handed to verification, so such an entry triggers
no verification and never by itself causes `LE_FAULT`. -/
theorem C9_verifyDir_skips_error_entries (env : SysEnv)
    (certPath pubCertName : String) (pre post : List FTSENT) (e : FTSENT)
    (h : e.fts_info = .FTS_DNR ∨ e.fts_info = .FTS_NS ∨ e.fts_info = .FTS_ERR) :
    VerifyDirRun env ⟨true, pre ++ e :: post⟩ certPath pubCertName =
      VerifyDirRun env ⟨true, pre ++ post⟩ certPath pubCertName := by
  have hne : e.fts_info ≠ .FTS_F := by
    rcases h with h | h | h <;> simp [h]
  unfold VerifyDirRun
  simpa using verifyDirLoop_insert_skip env certPath pubCertName pre post e hne

/-- Witness for C9: a traversal whose stream holds an unreadable
subdirectory entry behaves exactly like the same traversal without it
(and, the tool succeeding on `a.bin`, both verify). -/
theorem C9_verifyDir_skips_error_entries_witness :
    VerifyDirRun ⟨fun _ => .exited 0⟩
        ⟨true, [⟨"sub", "/d/sub", .FTS_DNR⟩, ⟨"a.bin", "/d/a.bin", .FTS_F⟩]⟩
        "/etc/cert.pem" "cert.pem" =
      VerifyDirRun ⟨fun _ => .exited 0⟩ ⟨true, [⟨"a.bin", "/d/a.bin", .FTS_F⟩]⟩
        "/etc/cert.pem" "cert.pem" :=
  C9_verifyDir_skips_error_entries ⟨fun _ => .exited 0⟩ "/etc/cert.pem" "cert.pem"
    [] [⟨"a.bin", "/d/a.bin", .FTS_F⟩] ⟨"sub", "/d/sub", .FTS_DNR⟩ (Or.inl rfl)

/-- Claim C8 fails as stated: two distinct termination statuses — death by
signal 9 and death by signal 11 — produce identical fault reports, and
the reported code is 0 rather than the process's actual termination
status, because the source logs `WEXITSTATUS(exitCode)` instead of the
raw status. -/
theorem C8_fault_report_counterexample :
    (VerifyFileRun ⟨fun _ => .signaled 9⟩ "/bin/app" "/etc/cert.pem").2 =
        (VerifyFileRun ⟨fun _ => .signaled 11⟩ "/bin/app" "/etc/cert.pem").2 ∧
      (VerifyFileRun ⟨fun _ => .signaled 9⟩ "/bin/app" "/etc/cert.pem").2 =
        some ⟨"/bin/app", "/etc/cert.pem", 0⟩ ∧
      rawStatus (ProcStatus.signaled 9) ≠ rawStatus (ProcStatus.signaled 11) := by
  decide

/-- Claim C8 (amended): on every `VerifyFile` fault the report names the
offending file path, the certificate path, and the `WEXITSTATUS` field of
the termination status — the actual exit status for a non-zero normal
exit, but 0 for every signal death (the signal number itself is not
reported).  A signal-death fault therefore still reports differently (0)
from every non-zero-exit fault (its nonzero code). -/
theorem C8_fault_report (env : SysEnv) (filePath certPath : String)
    (h : VerifyFile env filePath certPath = .LE_FAULT) :
    (VerifyFileRun env filePath certPath).2 =
        some ⟨filePath, certPath,
          WEXITSTATUS (rawStatus (env.run (verifyCmd filePath certPath)))⟩ ∧
      (∀ sig : Nat, WEXITSTATUS (rawStatus (.signaled sig)) = 0) ∧
      (∀ code : Nat, code % 256 ≠ 0 → WEXITSTATUS (rawStatus (.exited code)) ≠ 0) := by
  refine ⟨?_, wexitstatus_signaled, ?_⟩
  · unfold VerifyFile at h
    rw [verifyFileRun_eq] at h ⊢
    split at h <;> simp_all
  · intro code hcode
    rw [wexitstatus_exited]
    omega

/-- Witness for the amended C8 at a process killed by signal 9: the fault
report carries the file path, the certificate path, and the
`WEXITSTATUS` field of the status. -/
theorem C8_fault_report_witness :
    (VerifyFileRun ⟨fun _ => .signaled 9⟩ "/bin/app" "/etc/cert.pem").2 =
      some ⟨"/bin/app", "/etc/cert.pem",
        WEXITSTATUS (rawStatus (ProcStatus.signaled 9))⟩ :=
  (C8_fault_report ⟨fun _ => .signaled 9⟩ "/bin/app" "/etc/cert.pem" (by decide)).1

/-- Claim C10: command construction in `VerifyFile` and `ImportPublicCert`
writes into a fixed 4096-byte buffer and silently truncates: whenever the
formatted command exceeds 4095 bytes, the executed command is the
4095-byte prefix of the full command, no fault arises at construction
time, and the outcome is decided solely by the executed (truncated)
command's termination status. -/
theorem C10_cmd_truncation (env : SysEnv) (filePath certPath importCertPath : String)
    (h1 : 4096 ≤ (verifyCmdFull filePath certPath).length)
    (h2 : 4096 ≤ (importCmdFull importCertPath).length) :
    (verifyCmd filePath certPath =
        String.mk ((verifyCmdFull filePath certPath).data.take 4095) ∧
      (verifyCmd filePath certPath).length = 4095 ∧
      (VerifyFile env filePath certPath = .LE_OK ↔
        isExitZero (env.run (verifyCmd filePath certPath)) = true)) ∧
    (importCmd importCertPath =
        String.mk ((importCmdFull importCertPath).data.take 4095) ∧
      (importCmd importCertPath).length = 4095 ∧
      (ImportPublicCert env importCertPath = .LE_OK ↔
        isExitZero (env.run (importCmd importCertPath)) = true)) := by
  have hd1 : (verifyCmdFull filePath certPath).data.length =
      (verifyCmdFull filePath certPath).length := rfl
  have hd2 : (importCmdFull importCertPath).data.length =
      (importCmdFull importCertPath).length := rfl
  refine ⟨⟨rfl, ?_, verifyFile_ok_iff_isExitZero env filePath certPath⟩,
    ⟨rfl, ?_, importPublicCert_ok_iff_isExitZero env importCertPath⟩⟩
  · simp only [verifyCmd, snprintfCmd, String.length_mk, List.length_take,
      hd1, MAX_CMD_BYTES]
    omega
  · simp only [importCmd, snprintfCmd, String.length_mk, List.length_take,
      hd2, MAX_CMD_BYTES]
    omega

/-- Witness for C10: a 4096-character file path (respectively certificate
path) overflows the command buffer of each operation, and the executed
command is cut to 4095 characters. -/
theorem C10_cmd_truncation_witness :
    (verifyCmd (String.mk (List.replicate 4096 'a')) "/etc/cert.pem").length = 4095 ∧
      (importCmd (String.mk (List.replicate 4096 'c'))).length = 4095 := by
  have h := C10_cmd_truncation ⟨fun _ => .exited 0⟩
    (String.mk (List.replicate 4096 'a')) "/etc/cert.pem"
    (String.mk (List.replicate 4096 'c'))
    (by simp only [verifyCmdFull, String.length_append, String.length_mk,
          List.length_replicate]
        omega)
    (by simp only [importCmdFull, String.length_append, String.length_mk,
          List.length_replicate]
        omega)
  exact ⟨h.1.2.1, h.2.2.1⟩

end Ima
